import Mathlib

/-!
Verification of the geospatial / clip-volume core of the memoryblocks
repository, shallowly embedded from `src/GeoSpatial.ts` and
`src/NeRFLoader.ts`.

Numbers are modelled as real numbers; JavaScript `Math` functions are
modelled by their Mathlib counterparts (`Math.atan2 (y, x)` as the
argument of the complex number `x + y i`).  The single piece of mutable
state, the projector origin, is modelled by explicit state passing:
state-reading operations take the current origin, state-writing
operations also return the new origin.
-/

namespace MemoryBlocks

/-- Three-component real vector, mirroring `THREE.Vector3`. -/
structure Vector3 where
  x : ℝ
  y : ℝ
  z : ℝ

/-- Four-component real vector, mirroring `THREE.Vector4`.  For slice
planes the components are the plane normal `(x, y, z)` and the offset `w`. -/
structure Vector4 where
  x : ℝ
  y : ℝ
  z : ℝ
  w : ℝ

/-- Geographic location (interface `GeoLocation` in `src/GeoSpatial.ts`):
latitude and longitude in degrees, optional altitude in meters. -/
structure GeoLocation where
  latitude : ℝ
  longitude : ℝ
  altitude : Option ℝ

/-- Earth radius constant `EARTH_RADIUS` of `GeoSpatialManager`, in meters. -/
def EARTH_RADIUS : ℝ := 6371000

/-- Conversion `THREE.MathUtils.degToRad`: `degrees * (Math.PI / 180)`. -/
noncomputable def degToRad (degrees : ℝ) : ℝ := degrees * (Real.pi / 180)

/-- The JavaScript expression `loc.altitude || 0`: the altitude of a
location with missing altitude defaulting to `0`. -/
def altOrZero (loc : GeoLocation) : ℝ := loc.altitude.getD 0

/-- JavaScript `Math.atan2(y, x)`, embedded as the argument of the complex
number `x + y i`. -/
noncomputable def atan2 (y x : ℝ) : ℝ := Complex.arg ⟨x, y⟩

/-- Method `GeoSpatialManager.geoToScene` (`src/GeoSpatial.ts:44-63`),
embedded with explicit state passing: the first component is the returned
`THREE.Vector3`, the second the origin after the call (the method sets the
origin to `location` when none is set). -/
noncomputable def geoToScene (origin : Option GeoLocation) (location : GeoLocation) :
    Vector3 × Option GeoLocation :=
  match origin with
  | none => (⟨0, altOrZero location, 0⟩, some location)
  | some o =>
      let lat0 := degToRad o.latitude
      let lon0 := degToRad o.longitude
      let lat := degToRad location.latitude
      let lon := degToRad location.longitude
      let x := (lon - lon0) * Real.cos ((lat0 + lat) / 2) * EARTH_RADIUS
      let z := -(lat - lat0) * EARTH_RADIUS
      let y := altOrZero location - altOrZero o
      (⟨x, y, z⟩, some o)

/-- Method `GeoSpatialManager.setOrigin`: replaces the origin unconditionally. -/
def setOrigin (_origin : Option GeoLocation) (location : GeoLocation) :
    Option GeoLocation :=
  some location

/-- Method `GeoSpatialManager.getOrigin`, with the state it leaves behind. -/
def getOrigin (origin : Option GeoLocation) :
    Option GeoLocation × Option GeoLocation :=
  (origin, origin)

/-- Method `GeoSpatialManager.reset`: clears the origin to `null`. -/
def reset (_origin : Option GeoLocation) : Option GeoLocation := none

/-- Method `GeoSpatialManager.calculateDistance` (`src/GeoSpatial.ts:68-82`),
the Haversine formula.  The method body reads no mutable state, so the
embedding is a pure function of the two locations. -/
noncomputable def calculateDistance (loc1 loc2 : GeoLocation) : ℝ :=
  let lat1 := degToRad loc1.latitude
  let lat2 := degToRad loc2.latitude
  let deltaLat := lat2 - lat1
  let deltaLon := degToRad (loc2.longitude - loc1.longitude)
  let a := Real.sin (deltaLat / 2) * Real.sin (deltaLat / 2) +
      Real.cos lat1 * Real.cos lat2 * Real.sin (deltaLon / 2) * Real.sin (deltaLon / 2)
  let c := 2 * atan2 (Real.sqrt a) (Real.sqrt (1 - a))
  EARTH_RADIUS * c

/-- State-passing wrapper of `calculateDistance`: the method mutates nothing,
so the origin is returned unchanged. -/
noncomputable def calculateDistanceState (origin : Option GeoLocation)
    (loc1 loc2 : GeoLocation) : ℝ × Option GeoLocation :=
  (calculateDistance loc1 loc2, origin)

/-- The east component of the equirectangular projection as written in the
spec (§4.1): `(lon - lon0) * cos((lat0 + lat)/2 in radians) * R`, for
comparison with `geoToScene`. -/
noncomputable def specEast (o loc : GeoLocation) : ℝ :=
  (degToRad loc.longitude - degToRad o.longitude) *
    Real.cos ((degToRad o.latitude + degToRad loc.latitude) / 2) * EARTH_RADIUS

/-- The north component of the equirectangular projection as written in the
spec (§4.1): `(lat - lat0 in radians) * R`, for comparison with `geoToScene`. -/
noncomputable def specNorth (o loc : GeoLocation) : ℝ :=
  (degToRad loc.latitude - degToRad o.latitude) * EARTH_RADIUS

/-- Interface `PlatformConstraints` of `src/NeRFLoader.ts`: platform size,
height, surface height and optional clip height, in meters. -/
structure PlatformConstraints where
  size : ℝ
  height : ℝ
  surfaceY : ℝ
  clipHeight : Option ℝ

/-- The six per-axis slice distances (field `slicePlanes` of `NeRFLoader`,
fields in source declaration order). -/
structure SliceDistances where
  xNeg : ℝ
  xPos : ℝ
  yNeg : ℝ
  yPos : ℝ
  zNeg : ℝ
  zPos : ℝ

/-- Epsilon floor `1e-6` used by `updateSliceUniforms` in the
scale-compensation denominators `Math.max(s, 1e-6)`. -/
def epsSlice : ℝ := 1e-6

/-- Clip bounds computed by `NeRFLoader.refreshClipUniforms`
(`src/NeRFLoader.ts:361-382`): the pair `(min, max)` written into the clip
uniforms.  `clipHeight ?? height` models the source's
`clipHeight ?? height ?? size` (the `height` field is non-optional, so the
final `?? size` is unreachable). -/
noncomputable def refreshClipUniforms (pc : PlatformConstraints) (scale : Vector3) :
    Vector3 × Vector3 :=
  let halfSize := pc.size / 2 * scale.x
  let clipHeight := pc.clipHeight.getD pc.height * scale.y
  let floorY := pc.surfaceY * scale.y
  (⟨-halfSize, floorY, -halfSize⟩, ⟨halfSize, floorY + clipHeight, halfSize⟩)

/-- Clip bounds computed by the fallback path of `NeRFLoader.getClipBounds`
(`src/NeRFLoader.ts:538-553`), used when no clip uniforms exist yet. -/
noncomputable def getClipBoundsFresh (pc : PlatformConstraints) (scale : Vector3) :
    Vector3 × Vector3 :=
  let halfSize := pc.size / 2 * scale.x
  let clipHeight := pc.clipHeight.getD pc.height * scale.y
  let floorY := pc.surfaceY * scale.y
  (⟨-halfSize, floorY, -halfSize⟩, ⟨halfSize, floorY + clipHeight, halfSize⟩)

open Classical in
/-- Slice-plane list built by `NeRFLoader.updateSliceUniforms`
(`src/NeRFLoader.ts:400-445`): for each axis direction with a non-zero
configured distance, in source order (`xPos`, `xNeg`, `yPos`, `yNeg`,
`zPos`, `zNeg`), one `Vector4` plane is pushed.  The offsets reproduce the
source exactly, including the `xNeg` case which — unlike the other five —
does not negate its quotient. -/
noncomputable def updateSliceUniforms (sp : SliceDistances) (s : Vector3) :
    List Vector4 :=
  let planes : List Vector4 := []
  let planes := if sp.xPos ≠ 0 then
    planes ++ [⟨1, 0, 0, -(sp.xPos / max s.x epsSlice)⟩] else planes
  let planes := if sp.xNeg ≠ 0 then
    planes ++ [⟨-1, 0, 0, sp.xNeg / max s.x epsSlice⟩] else planes
  let planes := if sp.yPos ≠ 0 then
    planes ++ [⟨0, 1, 0, -(sp.yPos / max s.y epsSlice)⟩] else planes
  let planes := if sp.yNeg ≠ 0 then
    planes ++ [⟨0, -1, 0, -sp.yNeg / max s.y epsSlice⟩] else planes
  let planes := if sp.zPos ≠ 0 then
    planes ++ [⟨0, 0, 1, -(sp.zPos / max s.z epsSlice)⟩] else planes
  let planes := if sp.zNeg ≠ 0 then
    planes ++ [⟨0, 0, -1, -sp.zNeg / max s.z epsSlice⟩] else planes
  planes

/-- C1: with an origin present, `geoToScene` returns exactly the
equirectangular vector `(east, Δaltitude, -north)` of the spec, with
missing altitudes defaulting to 0 and `R = 6371000`; in particular the
third component is the negation of the northward distance. -/
theorem geoToScene_equirectangular (o loc : GeoLocation) :
    geoToScene (some o) loc =
      (⟨specEast o loc, altOrZero loc - altOrZero o, -specNorth o loc⟩, some o) ∧
    EARTH_RADIUS = 6371000 := by
  refine ⟨?_, rfl⟩
  simp only [geoToScene, specEast, specNorth, neg_mul]

/-- Helper: `degToRad` maps distinct degrees to distinct radians. -/
theorem degToRad_sub_ne_zero {a b : ℝ} (h : a ≠ b) : degToRad a - degToRad b ≠ 0 := by
  simp only [degToRad]
  have h2 : a * (Real.pi / 180) - b * (Real.pi / 180) = (a - b) * (Real.pi / 180) := by
    ring
  rw [h2]
  exact mul_ne_zero (sub_ne_zero.2 h) (div_ne_zero Real.pi_ne_zero (by norm_num))

/-- C5 counterexample: the second call to `geoToScene` with a location that
differs from the auto-set origin (altitude `0` instead of a missing
altitude) returns the zero offset, refuting "a subsequent call with a
different location returns a non-zero offset" as stated. -/
theorem geoToScene_second_call_zero_counterexample :
    geoToScene none ⟨51, 13, none⟩ = (⟨0, 0, 0⟩, some ⟨51, 13, none⟩) ∧
    (⟨51, 13, some 0⟩ : GeoLocation) ≠ ⟨51, 13, none⟩ ∧
    (geoToScene (some ⟨51, 13, none⟩) ⟨51, 13, some 0⟩).1 = ⟨0, 0, 0⟩ := by
  refine ⟨?_, ?_, ?_⟩
  · simp [geoToScene, altOrZero]
  · simp
  · simp [geoToScene, altOrZero, Vector3.mk.injEq]

/-- C5 (amended): the first `geoToScene` call with no origin set stores the
location as origin and returns `(0, altitude, 0)`; a subsequent call leaves
the origin unchanged, and returns a non-zero offset whenever the second
location differs from the origin in latitude, in effective altitude
(missing altitude read as 0), or in longitude while the mean of the two
latitudes lies strictly between -90 and 90 degrees. -/
theorem geoToScene_auto_origin (o loc : GeoLocation)
    (h : o.latitude ≠ loc.latitude ∨ altOrZero o ≠ altOrZero loc ∨
        (o.longitude ≠ loc.longitude ∧ -90 < (o.latitude + loc.latitude) / 2 ∧
         (o.latitude + loc.latitude) / 2 < 90)) :
    geoToScene none o = (⟨0, altOrZero o, 0⟩, some o) ∧
    (geoToScene (some o) loc).2 = some o ∧
    (geoToScene (some o) loc).1 ≠ ⟨0, 0, 0⟩ := by
  refine ⟨rfl, rfl, ?_⟩
  simp only [geoToScene]
  intro heq
  rw [Vector3.mk.injEq] at heq
  obtain ⟨hx, hy, hz⟩ := heq
  have hR : EARTH_RADIUS ≠ 0 := by norm_num [EARTH_RADIUS]
  rcases h with hlat | halt | ⟨hlon, hm1, hm2⟩
  · rcases mul_eq_zero.1 hz with hz1 | hz2
    · exact degToRad_sub_ne_zero (Ne.symm hlat) (neg_eq_zero.1 hz1)
    · exact hR hz2
  · exact halt (sub_eq_zero.1 hy).symm
  · have hpi : (0 : ℝ) < Real.pi / 180 := div_pos Real.pi_pos (by norm_num)
    have hmval : (degToRad o.latitude + degToRad loc.latitude) / 2 =
        ((o.latitude + loc.latitude) / 2) * (Real.pi / 180) := by
      simp only [degToRad]; ring
    have hcos : 0 < Real.cos ((degToRad o.latitude + degToRad loc.latitude) / 2) := by
      rw [hmval]
      apply Real.cos_pos_of_mem_Ioo
      constructor
      · have := mul_lt_mul_of_pos_right hm1 hpi
        have he : (-90 : ℝ) * (Real.pi / 180) = -(Real.pi / 2) := by ring
        linarith [he ▸ this]
      · have := mul_lt_mul_of_pos_right hm2 hpi
        have he : (90 : ℝ) * (Real.pi / 180) = Real.pi / 2 := by ring
        linarith [he ▸ this]
    rcases mul_eq_zero.1 hx with hx1 | hx2
    · rcases mul_eq_zero.1 hx1 with hx3 | hx4
      · exact degToRad_sub_ne_zero (Ne.symm hlon) hx3
      · exact (ne_of_gt hcos) hx4
    · exact hR hx2

/-- C5 witness: concrete instantiation of `geoToScene_auto_origin` at the
origin (0, 0) and a second location one degree of latitude north. -/
theorem geoToScene_auto_origin_witness :
    geoToScene none ⟨0, 0, none⟩ = (⟨0, 0, 0⟩, some ⟨0, 0, none⟩) ∧
    (geoToScene (some ⟨0, 0, none⟩) ⟨1, 0, none⟩).2 = some ⟨0, 0, none⟩ ∧
    (geoToScene (some ⟨0, 0, none⟩) ⟨1, 0, none⟩).1 ≠ ⟨0, 0, 0⟩ := by
  have h := geoToScene_auto_origin ⟨0, 0, none⟩ ⟨1, 0, none⟩ (Or.inl (by norm_num))
  simpa [altOrZero] using h

/-- C8: once an origin is set, every operation except `setOrigin` and
`reset` leaves it unchanged: `geoToScene` with an origin present,
`getOrigin` and `calculateDistance` preserve the stored origin, `reset`
clears it to `none`, `setOrigin` replaces it, and the first conversion with
no origin auto-sets it. -/
theorem origin_invariant (o loc loc2 a b : GeoLocation) (st : Option GeoLocation) :
    (geoToScene (some o) loc).2 = some o ∧
    (getOrigin (some o)).2 = some o ∧
    (calculateDistanceState (some o) a b).2 = some o ∧
    reset st = none ∧
    setOrigin st loc2 = some loc2 ∧
    (geoToScene none loc).2 = some loc := by
  exact ⟨rfl, rfl, rfl, rfl, rfl, rfl⟩

/-- Helper: the Haversine distance between two locations with equal latitude
and equal longitude is zero. -/
theorem calculateDistance_same_latlon (l1 l2 : GeoLocation)
    (hlat : l1.latitude = l2.latitude) (hlon : l1.longitude = l2.longitude) :
    calculateDistance l1 l2 = 0 := by
  simp only [calculateDistance, atan2, hlat, hlon, sub_self]
  have hd : degToRad 0 = 0 := by simp [degToRad]
  rw [hd]
  norm_num
  have h1 : (⟨1, 0⟩ : ℂ) = 1 := by
    refine Complex.ext ?_ ?_ <;> simp
  rw [h1, Complex.arg_one]
  norm_num

/-- C6: the Haversine distance is symmetric, non-negative, and zero on the
diagonal, for all locations and independently of any origin state (the
embedding of `calculateDistance` reads no origin). -/
theorem calculateDistance_symm_nonneg_self (a b : GeoLocation) :
    calculateDistance a b = calculateDistance b a ∧
    0 ≤ calculateDistance a b ∧
    calculateDistance a a = 0 := by
  refine ⟨?_, ?_, calculateDistance_same_latlon a a rfl rfl⟩
  · simp only [calculateDistance]
    have hA : Real.sin ((degToRad b.latitude - degToRad a.latitude) / 2) *
          Real.sin ((degToRad b.latitude - degToRad a.latitude) / 2) +
          Real.cos (degToRad a.latitude) * Real.cos (degToRad b.latitude) *
          Real.sin (degToRad (b.longitude - a.longitude) / 2) *
          Real.sin (degToRad (b.longitude - a.longitude) / 2) =
        Real.sin ((degToRad a.latitude - degToRad b.latitude) / 2) *
          Real.sin ((degToRad a.latitude - degToRad b.latitude) / 2) +
          Real.cos (degToRad b.latitude) * Real.cos (degToRad a.latitude) *
          Real.sin (degToRad (a.longitude - b.longitude) / 2) *
          Real.sin (degToRad (a.longitude - b.longitude) / 2) := by
      have h1 : (degToRad a.latitude - degToRad b.latitude) / 2 =
          -((degToRad b.latitude - degToRad a.latitude) / 2) := by ring
      have h2 : degToRad (a.longitude - b.longitude) / 2 =
          -(degToRad (b.longitude - a.longitude) / 2) := by
        simp only [degToRad]; ring
      rw [h1, h2, Real.sin_neg, Real.sin_neg]
      ring
    rw [hA]
  · have him : (0 : ℝ) ≤ (⟨Real.sqrt (1 - (Real.sin ((degToRad b.latitude -
        degToRad a.latitude) / 2) * Real.sin ((degToRad b.latitude -
        degToRad a.latitude) / 2) + Real.cos (degToRad a.latitude) *
        Real.cos (degToRad b.latitude) *
        Real.sin (degToRad (b.longitude - a.longitude) / 2) *
        Real.sin (degToRad (b.longitude - a.longitude) / 2))),
        Real.sqrt (Real.sin ((degToRad b.latitude - degToRad a.latitude) / 2) *
        Real.sin ((degToRad b.latitude - degToRad a.latitude) / 2) +
        Real.cos (degToRad a.latitude) * Real.cos (degToRad b.latitude) *
        Real.sin (degToRad (b.longitude - a.longitude) / 2) *
        Real.sin (degToRad (b.longitude - a.longitude) / 2))⟩ : ℂ).im :=
      Real.sqrt_nonneg _
    have harg := Complex.arg_nonneg_iff.2 him
    simp only [calculateDistance, atan2]
    have hR : (0 : ℝ) ≤ EARTH_RADIUS := by norm_num [EARTH_RADIUS]
    exact mul_nonneg hR (by linarith)

/-- C10: the Haversine distance depends only on latitudes and longitudes:
changing altitudes never changes the result, and two locations with equal
latitude and longitude but arbitrary altitudes are at distance zero. -/
theorem calculateDistance_ignores_altitude (lat1 lon1 lat2 lon2 : ℝ)
    (alt1 alt2 alt3 alt4 : Option ℝ) :
    calculateDistance ⟨lat1, lon1, alt1⟩ ⟨lat2, lon2, alt2⟩ =
      calculateDistance ⟨lat1, lon1, alt3⟩ ⟨lat2, lon2, alt4⟩ ∧
    calculateDistance ⟨lat1, lon1, alt1⟩ ⟨lat1, lon1, alt2⟩ = 0 := by
  exact ⟨rfl, calculateDistance_same_latlon _ _ rfl rfl⟩

/-- C2 counterexample: with platform size 60 (footprint half-width 30) and
scale `(1, 1, 2)`, the computed Z extent of the clip box is `-30`
(`footprintHalfWidth * sx`), not the `-60` (`footprintHalfWidth * sz`)
required by the claim. -/
theorem refreshClipUniforms_z_extent_counterexample :
    (refreshClipUniforms ⟨60, 1.5, 0, none⟩ ⟨1, 1, 2⟩).1.z = -30 ∧
    -((60 : ℝ) / 2 * 2) = -60 ∧ ((-30 : ℝ) ≠ -60) := by
  refine ⟨?_, by norm_num, by norm_num⟩
  norm_num [refreshClipUniforms]

/-- C2 (amended): the computed clip bounds are
`min = (-halfX, floor, -halfX)`, `max = (halfX, floor + height, halfX)`
with `halfX = footprintHalfWidth * sx`, `height = clipHeight * sy` and
`floor = floorY * sy`: both horizontal half-extents use the X scale
component, and the fallback path of `getClipBounds` computes the same
bounds. -/
theorem clipBounds_formula (pc : PlatformConstraints) (s : Vector3) :
    refreshClipUniforms pc s =
      (⟨-(pc.size / 2 * s.x), pc.surfaceY * s.y, -(pc.size / 2 * s.x)⟩,
       ⟨pc.size / 2 * s.x, pc.surfaceY * s.y + pc.clipHeight.getD pc.height * s.y,
        pc.size / 2 * s.x⟩) ∧
    getClipBoundsFresh pc s = refreshClipUniforms pc s := by
  exact ⟨rfl, rfl⟩

/-- Helper: `updateSliceUniforms` written as the in-order concatenation of
six optional singleton plane lists. -/
theorem updateSliceUniforms_eq_append (sp : SliceDistances) (s : Vector3) :
    updateSliceUniforms sp s =
      (if sp.xPos ≠ 0 then [⟨1, 0, 0, -(sp.xPos / max s.x epsSlice)⟩] else []) ++
      (if sp.xNeg ≠ 0 then [⟨-1, 0, 0, sp.xNeg / max s.x epsSlice⟩] else []) ++
      (if sp.yPos ≠ 0 then [⟨0, 1, 0, -(sp.yPos / max s.y epsSlice)⟩] else []) ++
      (if sp.yNeg ≠ 0 then [⟨0, -1, 0, -sp.yNeg / max s.y epsSlice⟩] else []) ++
      (if sp.zPos ≠ 0 then [⟨0, 0, 1, -(sp.zPos / max s.z epsSlice)⟩] else []) ++
      (if sp.zNeg ≠ 0 then [⟨0, 0, -1, -sp.zNeg / max s.z epsSlice⟩] else []) := by
  simp only [updateSliceUniforms]
  split_ifs <;> simp

/-- Helper: membership in an optional singleton list forces the element. -/
theorem eq_of_mem_ite_singleton {α : Type} {c : Prop} [Decidable c] {p v : α}
    (h : v ∈ (if c then [p] else [])) : v = p := by
  split at h
  · simpa using h
  · simp at h

/-- C3: the active slice planes are emitted in the fixed order `xPos`,
`xNeg`, `yPos`, `yNeg`, `zPos`, `zNeg` with zero-distance entries skipped,
one plane per non-zero configured distance, so the list length equals the
number of non-zero distances and is at most 6. -/
theorem updateSliceUniforms_order_count (sp : SliceDistances) (s : Vector3) :
    updateSliceUniforms sp s =
      (if sp.xPos ≠ 0 then [⟨1, 0, 0, -(sp.xPos / max s.x epsSlice)⟩] else []) ++
      (if sp.xNeg ≠ 0 then [⟨-1, 0, 0, sp.xNeg / max s.x epsSlice⟩] else []) ++
      (if sp.yPos ≠ 0 then [⟨0, 1, 0, -(sp.yPos / max s.y epsSlice)⟩] else []) ++
      (if sp.yNeg ≠ 0 then [⟨0, -1, 0, -sp.yNeg / max s.y epsSlice⟩] else []) ++
      (if sp.zPos ≠ 0 then [⟨0, 0, 1, -(sp.zPos / max s.z epsSlice)⟩] else []) ++
      (if sp.zNeg ≠ 0 then [⟨0, 0, -1, -sp.zNeg / max s.z epsSlice⟩] else []) ∧
    (updateSliceUniforms sp s).length =
      ((if sp.xPos ≠ 0 then 1 else 0) + (if sp.xNeg ≠ 0 then 1 else 0) +
       (if sp.yPos ≠ 0 then 1 else 0) + (if sp.yNeg ≠ 0 then 1 else 0) +
       (if sp.zPos ≠ 0 then 1 else 0) + (if sp.zNeg ≠ 0 then 1 else 0)) ∧
    (updateSliceUniforms sp s).length ≤ 6 := by
  refine ⟨updateSliceUniforms_eq_append sp s, ?_, ?_⟩
  · rw [updateSliceUniforms_eq_append]
    split_ifs <;> simp
  · rw [updateSliceUniforms_eq_append]
    split_ifs <;> simp

/-- C4 (code bug): for the `-X` direction with distance 1 at unit scale the
source emits the plane `((-1, 0, 0), +1)` — offset `+d/s` — whereas the
spec's uniform convention, followed by the other five directions, requires
offset `-(d/s) = -1`.  The discard test `dot(n, p) + offset > 0` with the
emitted plane cuts away every point with `x < 1`, a region containing the
model origin. -/
theorem updateSliceUniforms_xNeg_offset_bug :
    updateSliceUniforms ⟨1, 0, 0, 0, 0, 0⟩ ⟨1, 1, 1⟩ = [⟨-1, 0, 0, 1⟩] ∧
    -((1 : ℝ) / max (1 : ℝ) epsSlice) = -1 ∧ ((1 : ℝ) ≠ -1) := by
  have hm : max (1 : ℝ) epsSlice = 1 := max_eq_left (by norm_num [epsSlice])
  refine ⟨?_, by rw [hm]; norm_num, by norm_num⟩
  rw [updateSliceUniforms_eq_append]
  norm_num [hm]

/-- C7 counterexample: with a negative scale component `-2` and `+X`
distance 1, the emitted offset is `-(1 / max(-2, 1e-6)) = -1000000`, not
the `-(1 / max(|-2|, 1e-6)) = -(1/2)` the claim's denominator
`max(|scaleComponent|, eps)` would produce: the source takes no absolute
value. -/
theorem updateSliceUniforms_abs_denominator_counterexample :
    updateSliceUniforms ⟨0, 1, 0, 0, 0, 0⟩ ⟨-2, 1, 1⟩ = [⟨1, 0, 0, -1000000⟩] ∧
    -((1 : ℝ) / max |(-2 : ℝ)| epsSlice) = -(1 / 2) ∧
    ((-1000000 : ℝ) ≠ -(1 / 2)) := by
  have hm : max (-2 : ℝ) epsSlice = epsSlice := max_eq_right (by norm_num [epsSlice])
  have ha : max |(-2 : ℝ)| epsSlice = 2 := by
    rw [abs_neg, abs_two]
    exact max_eq_left (by norm_num [epsSlice])
  refine ⟨?_, by rw [ha], by norm_num⟩
  rw [updateSliceUniforms_eq_append]
  norm_num [hm, epsSlice]

/-- C7 (amended): for every configuration and every scale, including scales
with zero components, every plane emitted by `updateSliceUniforms` has its
offset computed as a quotient whose denominator is `max(scaleComponent,
1e-6)` (no absolute value) for the plane's axis, which is at least
`1e-6 > 0`, so no division by zero occurs and every offset is a
well-defined real. -/
theorem updateSliceUniforms_zero_scale_safe (sp : SliceDistances) (s : Vector3) :
    0 < max s.x epsSlice ∧ 0 < max s.y epsSlice ∧ 0 < max s.z epsSlice ∧
    ∀ v ∈ updateSliceUniforms sp s, ∃ d c,
      (c = s.x ∨ c = s.y ∨ c = s.z) ∧ epsSlice ≤ max c epsSlice ∧
      v.w = d / max c epsSlice := by
  have hpos : ∀ c : ℝ, 0 < max c epsSlice := fun c =>
    lt_of_lt_of_le (by norm_num [epsSlice]) (le_max_right _ _)
  refine ⟨hpos s.x, hpos s.y, hpos s.z, ?_⟩
  intro v hv
  rw [updateSliceUniforms_eq_append] at hv
  simp only [List.mem_append] at hv
  rcases hv with ((((hv | hv) | hv) | hv) | hv) | hv
  · exact ⟨-sp.xPos, s.x, Or.inl rfl, le_max_right _ _, by
      rw [eq_of_mem_ite_singleton hv]; simp [neg_div]⟩
  · exact ⟨sp.xNeg, s.x, Or.inl rfl, le_max_right _ _, by
      rw [eq_of_mem_ite_singleton hv]⟩
  · exact ⟨-sp.yPos, s.y, Or.inr (Or.inl rfl), le_max_right _ _, by
      rw [eq_of_mem_ite_singleton hv]; simp [neg_div]⟩
  · exact ⟨-sp.yNeg, s.y, Or.inr (Or.inl rfl), le_max_right _ _, by
      rw [eq_of_mem_ite_singleton hv]⟩
  · exact ⟨-sp.zPos, s.z, Or.inr (Or.inr rfl), le_max_right _ _, by
      rw [eq_of_mem_ite_singleton hv]; simp [neg_div]⟩
  · exact ⟨-sp.zNeg, s.z, Or.inr (Or.inr rfl), le_max_right _ _, by
      rw [eq_of_mem_ite_singleton hv]⟩

/-- C7 witness: concrete instantiation of `updateSliceUniforms_zero_scale_safe`
at the all-zero scale with `+X` distance 1, whose single emitted plane has
offset `-(1 / 1e-6)`. -/
theorem updateSliceUniforms_zero_scale_safe_witness :
    (⟨1, 0, 0, -((1 : ℝ) / max (0 : ℝ) epsSlice)⟩ : Vector4) ∈
      updateSliceUniforms ⟨0, 1, 0, 0, 0, 0⟩ ⟨0, 0, 0⟩ ∧
    ∃ d c, (c = (0 : ℝ) ∨ c = (0 : ℝ) ∨ c = (0 : ℝ)) ∧
      epsSlice ≤ max c epsSlice ∧
      (⟨1, 0, 0, -((1 : ℝ) / max (0 : ℝ) epsSlice)⟩ : Vector4).w =
        d / max c epsSlice := by
  have hmem : (⟨1, 0, 0, -((1 : ℝ) / max (0 : ℝ) epsSlice)⟩ : Vector4) ∈
      updateSliceUniforms ⟨0, 1, 0, 0, 0, 0⟩ ⟨0, 0, 0⟩ := by
    rw [updateSliceUniforms_eq_append]
    norm_num
  exact ⟨hmem,
    (updateSliceUniforms_zero_scale_safe ⟨0, 1, 0, 0, 0, 0⟩ ⟨0, 0, 0⟩).2.2.2 _ hmem⟩

/-- Helper: the cubic Taylor polynomial of sine is monotone on `[0, 1]`. -/
theorem sin_cubic_mono {x y : ℝ} (hx : 0 ≤ x) (hxy : x ≤ y) (hy : y ≤ 1) :
    x - x ^ 3 / 6 ≤ y - y ^ 3 / 6 := by
  have hy0 : 0 ≤ y := le_trans hx hxy
  have hx1 : x ≤ 1 := le_trans hxy hy
  have h1 : 0 ≤ y * (1 - x) := mul_nonneg hy0 (by linarith)
  have h2 : 0 ≤ y * (1 - y) := mul_nonneg hy0 (by linarith)
  have h3 : 0 ≤ x * (1 - x) := mul_nonneg hx (by linarith)
  have hq : y ^ 2 + y * x + x ^ 2 ≤ 3 := by nlinarith [h1, h2, h3]
  have hp : 0 ≤ (y - x) * (6 - (y ^ 2 + y * x + x ^ 2)) :=
    mul_nonneg (by linarith) (by linarith)
  nlinarith [hp]

/-- Helper: numeric Taylor bounds for sine on a subinterval of `[0, 1]`,
from Mathlib's quartic remainder bound. -/
theorem sin_num_bounds {x lo hi : ℝ} (hlo : lo ≤ x) (hhi : x ≤ hi)
    (h0 : 0 ≤ lo) (h1 : hi ≤ 1) :
    lo - lo ^ 3 / 6 - hi ^ 4 * (5 / 96) ≤ Real.sin x ∧
    Real.sin x ≤ hi - hi ^ 3 / 6 + hi ^ 4 * (5 / 96) := by
  have hx0 : 0 ≤ x := le_trans h0 hlo
  have habs : |x| ≤ 1 := by
    rw [abs_of_nonneg hx0]; linarith
  have hb := Real.sin_bound habs
  rw [abs_of_nonneg hx0, abs_le] at hb
  have hm1 := sin_cubic_mono h0 hlo (le_trans hhi h1)
  have hm2 := sin_cubic_mono hx0 hhi h1
  have hx2 : x ^ 2 ≤ hi ^ 2 := by nlinarith
  have hx4 : x ^ 4 ≤ hi ^ 4 := by nlinarith [hx2, sq_nonneg x, sq_nonneg hi]
  exact ⟨by linarith [hb.1], by linarith [hb.2]⟩

/-- Helper: the cosine double-angle identity in the `1 - 2 sin²` form. -/
theorem cos_eq_one_sub_two_sin_sq (x : ℝ) :
    Real.cos (2 * x) = 1 - 2 * Real.sin x ^ 2 := by
  have h1 := Real.cos_two_mul x
  have h2 := Real.sin_sq_add_cos_sq x
  linarith

/-- Helper: the Haversine distance formula tail, bounded numerically: for a
haversine value `A` in the bracket established for the London-Paris pair,
`R * 2 * atan2 (sqrt A) (sqrt (1-A))` lies within 1 percent of 343 km. -/
theorem haversine_dist_bound {A : ℝ} (hAlo : (7.1234e-4 : ℝ) ≤ A)
    (hAhi : A ≤ 7.1611e-4) :
    |(6371000 : ℝ) * (2 * Complex.arg ⟨Real.sqrt (1 - A), Real.sqrt A⟩) - 343000| ≤
      3430 := by
  have h0A : (0 : ℝ) ≤ A := by linarith
  have h1A : A ≤ 1 := by linarith
  have habs1 : Complex.abs ⟨Real.sqrt (1 - A), Real.sqrt A⟩ = 1 := by
    rw [Complex.abs_apply, Complex.normSq_mk, Real.mul_self_sqrt (by linarith),
      Real.mul_self_sqrt h0A, (by ring : 1 - A + A = (1 : ℝ)), Real.sqrt_one]
  have hsin : Real.sin (Complex.arg ⟨Real.sqrt (1 - A), Real.sqrt A⟩) = Real.sqrt A := by
    rw [Complex.sin_arg, habs1, div_one]
  have hy0 : 0 ≤ Complex.arg ⟨Real.sqrt (1 - A), Real.sqrt A⟩ :=
    Complex.arg_nonneg_iff.2 (Real.sqrt_nonneg A)
  have hy2 : Complex.arg ⟨Real.sqrt (1 - A), Real.sqrt A⟩ ≤ Real.pi / 2 := by
    have h := Complex.abs_arg_le_pi_div_two_iff.2
      (show (0 : ℝ) ≤ (⟨Real.sqrt (1 - A), Real.sqrt A⟩ : ℂ).re from
        Real.sqrt_nonneg (1 - A))
    exact (abs_le.1 h).2
  have hsq_lo : (0.0266893 : ℝ) ≤ Real.sqrt A :=
    (Real.le_sqrt (by norm_num) h0A).2 (by nlinarith)
  have hsq_hi : Real.sqrt A ≤ 0.026762 := by
    have h := Real.sqrt_le_sqrt (show A ≤ (0.026762 : ℝ) ^ 2 by nlinarith)
    rwa [Real.sqrt_sq (by norm_num)] at h
  set y := Complex.arg ⟨Real.sqrt (1 - A), Real.sqrt A⟩ with hydef
  have hypos : 0 < y := by
    rcases eq_or_lt_of_le hy0 with heq | hlt
    · exfalso
      rw [← heq, Real.sin_zero] at hsin
      rw [← hsin] at hsq_lo
      norm_num at hsq_lo
    · exact hlt
  have hylo : 0.0266893 < y := by
    have h := Real.sin_lt hypos
    rw [hsin] at h
    linarith
  have hyle01 : y ≤ 0.1 := by
    by_contra hcon
    push_neg at hcon
    have hmono := Real.sin_lt_sin_of_lt_of_le_pi_div_two
      (show -(Real.pi / 2) ≤ (0.1 : ℝ) by linarith [Real.pi_pos]) hy2 hcon
    have hcube := Real.sin_gt_sub_cube (show (0 : ℝ) < 0.1 by norm_num)
      (show (0.1 : ℝ) ≤ 1 by norm_num)
    rw [hsin] at hmono
    have hfin : (0.1 : ℝ) - 0.1 ^ 3 / 4 < 0.026762 := by linarith
    norm_num at hfin
  have hcube2 := Real.sin_gt_sub_cube hypos (by linarith : y ≤ 1)
  rw [hsin] at hcube2
  have hysq : y ^ 2 ≤ 0.01 := by nlinarith
  have hycube : y ^ 3 ≤ 0.01 * y := by nlinarith [hysq, hypos.le]
  have hyhi : y ≤ 0.02683 := by nlinarith [hcube2, hsq_hi, hycube]
  rw [abs_le]
  constructor <;> nlinarith [hylo, hyhi]

set_option maxHeartbeats 2000000 in
/-- C9: the Haversine distance between the London landmark
`(51.5007, -0.1246)` and the Paris landmark `(48.8584, 2.2945)` lies within
1 percent of 343,000 meters. -/
theorem calculateDistance_london_paris :
    |calculateDistance ⟨51.5007, -0.1246, none⟩ ⟨48.8584, 2.2945, none⟩ - 343000| ≤
      3430 := by
  have hπl := Real.pi_gt_d6
  have hπu := Real.pi_lt_d6
  -- numeric bounds for the four angles involved
  have ht1 : (0.449428 : ℝ) ≤ 51.5007 * (Real.pi / 180) / 2 ∧
      51.5007 * (Real.pi / 180) / 2 ≤ 0.4494285 := by
    constructor <;> linarith
  have ht2 : (0.426369 : ℝ) ≤ 48.8584 * (Real.pi / 180) / 2 ∧
      48.8584 * (Real.pi / 180) / 2 ≤ 0.4263701 := by
    constructor <;> linarith
  have hu1 : (0.0230584 : ℝ) ≤ 1.32115 * (Real.pi / 180) ∧
      1.32115 * (Real.pi / 180) ≤ 0.0230585 := by
    constructor <;> linarith
  have hu2 : (0.0211106 : ℝ) ≤ 1.20955 * (Real.pi / 180) ∧
      1.20955 * (Real.pi / 180) ≤ 0.0211107 := by
    constructor <;> linarith
  -- London half latitude: sine and cosine
  have hs1 := sin_num_bounds ht1.1 ht1.2 (by norm_num) (by norm_num)
  have hs1n : (0.432173 : ℝ) ≤ Real.sin (51.5007 * (Real.pi / 180) / 2) ∧
      Real.sin (51.5007 * (Real.pi / 180) / 2) ≤ 0.436424 :=
    ⟨le_trans (by norm_num) hs1.1, le_trans hs1.2 (by norm_num)⟩
  have hcd1 := cos_eq_one_sub_two_sin_sq (51.5007 * (Real.pi / 180) / 2)
  rw [(by ring : 2 * (51.5007 * (Real.pi / 180) / 2) = 51.5007 * (Real.pi / 180))] at hcd1
  have hc1 : (0.619068 : ℝ) ≤ Real.cos (51.5007 * (Real.pi / 180)) ∧
      Real.cos (51.5007 * (Real.pi / 180)) ≤ 0.626454 := by
    rw [hcd1]
    constructor <;> nlinarith [hs1n.1, hs1n.2]
  -- Paris half latitude: sine and cosine
  have hs2 := sin_num_bounds ht2.1 ht2.2 (by norm_num) (by norm_num)
  have hs2n : (0.411729 : ℝ) ≤ Real.sin (48.8584 * (Real.pi / 180) / 2) ∧
      Real.sin (48.8584 * (Real.pi / 180) / 2) ≤ 0.415174 :=
    ⟨le_trans (by norm_num) hs2.1, le_trans hs2.2 (by norm_num)⟩
  have hcd2 := cos_eq_one_sub_two_sin_sq (48.8584 * (Real.pi / 180) / 2)
  rw [(by ring : 2 * (48.8584 * (Real.pi / 180) / 2) = 48.8584 * (Real.pi / 180))] at hcd2
  have hc2 : (0.655261 : ℝ) ≤ Real.cos (48.8584 * (Real.pi / 180)) ∧
      Real.cos (48.8584 * (Real.pi / 180)) ≤ 0.660959 := by
    rw [hcd2]
    constructor <;> nlinarith [hs2n.1, hs2n.2]
  -- half latitude difference: sine
  have hd1 := sin_num_bounds hu1.1 hu1.2 (by norm_num) (by norm_num)
  have hd1n : (0.0230563 : ℝ) ≤ Real.sin (1.32115 * (Real.pi / 180)) ∧
      Real.sin (1.32115 * (Real.pi / 180)) ≤ 0.0230565 :=
    ⟨le_trans (by norm_num) hd1.1, le_trans hd1.2 (by norm_num)⟩
  -- half longitude difference: sine
  have hd2 := sin_num_bounds hu2.1 hu2.2 (by norm_num) (by norm_num)
  have hd2n : (0.0211090 : ℝ) ≤ Real.sin (1.20955 * (Real.pi / 180)) ∧
      Real.sin (1.20955 * (Real.pi / 180)) ≤ 0.0211092 :=
    ⟨le_trans (by norm_num) hd2.1, le_trans hd2.2 (by norm_num)⟩
  -- assembled bounds for the haversine value
  have hss1 : (5.31592e-4 : ℝ) ≤
      Real.sin (1.32115 * (Real.pi / 180)) * Real.sin (1.32115 * (Real.pi / 180)) ∧
      Real.sin (1.32115 * (Real.pi / 180)) * Real.sin (1.32115 * (Real.pi / 180)) ≤
        5.31603e-4 := by
    constructor <;> nlinarith [hd1n.1, hd1n.2]
  have hss2 : (4.45589e-4 : ℝ) ≤
      Real.sin (1.20955 * (Real.pi / 180)) * Real.sin (1.20955 * (Real.pi / 180)) ∧
      Real.sin (1.20955 * (Real.pi / 180)) * Real.sin (1.20955 * (Real.pi / 180)) ≤
        4.45599e-4 := by
    constructor <;> nlinarith [hd2n.1, hd2n.2]
  have hP : (0.405651 : ℝ) ≤
      Real.cos (51.5007 * (Real.pi / 180)) * Real.cos (48.8584 * (Real.pi / 180)) ∧
      Real.cos (51.5007 * (Real.pi / 180)) * Real.cos (48.8584 * (Real.pi / 180)) ≤
        0.414061 := by
    constructor <;> nlinarith [hc1.1, hc1.2, hc2.1, hc2.2]
  have hT : (1.80753e-4 : ℝ) ≤
      (Real.cos (51.5007 * (Real.pi / 180)) * Real.cos (48.8584 * (Real.pi / 180))) *
        (Real.sin (1.20955 * (Real.pi / 180)) * Real.sin (1.20955 * (Real.pi / 180))) ∧
      (Real.cos (51.5007 * (Real.pi / 180)) * Real.cos (48.8584 * (Real.pi / 180))) *
        (Real.sin (1.20955 * (Real.pi / 180)) * Real.sin (1.20955 * (Real.pi / 180))) ≤
        1.84506e-4 := by
    constructor <;> nlinarith [hP.1, hP.2, hss2.1, hss2.2]
  -- rewrite the distance into the bounded form and conclude
  have hdlat : ((48.8584 : ℝ) * (Real.pi / 180) - 51.5007 * (Real.pi / 180)) / 2 =
      -(1.32115 * (Real.pi / 180)) := by ring
  have hdlon : ((2.2945 : ℝ) - -0.1246) * (Real.pi / 180) / 2 =
      1.20955 * (Real.pi / 180) := by ring
  show |(6371000 : ℝ) * (2 * Complex.arg
      ⟨Real.sqrt (1 -
        (Real.sin ((48.8584 * (Real.pi / 180) - 51.5007 * (Real.pi / 180)) / 2) *
          Real.sin ((48.8584 * (Real.pi / 180) - 51.5007 * (Real.pi / 180)) / 2) +
         Real.cos (51.5007 * (Real.pi / 180)) * Real.cos (48.8584 * (Real.pi / 180)) *
          Real.sin ((2.2945 - -0.1246) * (Real.pi / 180) / 2) *
          Real.sin ((2.2945 - -0.1246) * (Real.pi / 180) / 2))),
       Real.sqrt
        (Real.sin ((48.8584 * (Real.pi / 180) - 51.5007 * (Real.pi / 180)) / 2) *
          Real.sin ((48.8584 * (Real.pi / 180) - 51.5007 * (Real.pi / 180)) / 2) +
         Real.cos (51.5007 * (Real.pi / 180)) * Real.cos (48.8584 * (Real.pi / 180)) *
          Real.sin ((2.2945 - -0.1246) * (Real.pi / 180) / 2) *
          Real.sin ((2.2945 - -0.1246) * (Real.pi / 180) / 2))⟩) - 343000| ≤ 3430
  rw [hdlat, hdlon, Real.sin_neg, neg_mul_neg]
  apply haversine_dist_bound
  · nlinarith [hss1.1, hT.1]
  · nlinarith [hss1.2, hT.2]

end MemoryBlocks
